import Mathlib

/-!
Verification development for the MonetDB ODBC driver's `SQLExecute.c`
(`src/sql/src/odbc/driver/SQLExecute.c`): the incremental tabular-result
stream decoder.  The C source is shallowly embedded below: the helper
`convert`, the frame reader `next_result`, the type table `sql_types`,
the header and row decoding loops of `SQLExecute`, and the parameter
substitution block, each translated statement by statement.  Stream
primitives (`stream_readInt`, `bs_read_next`, `bstream_read`) and the
protocol constants live outside the surveyed source and are modelled
from the specification where noted.
-/

namespace MDB

set_option maxRecDepth 4000

/-- Modelled from the spec: ODBC return codes (`sqltypes.h` is not part of
the surveyed source).  Standard values: `SQL_SUCCESS = 0`, `SQL_ERROR = -1`,
`SQL_INVALID_HANDLE = -2`. -/
def SQL_SUCCESS : Int := 0

/-- Modelled from the spec: ODBC `SQL_ERROR` return code. -/
def SQL_ERROR : Int := -1

/-- Modelled from the spec: ODBC `SQL_INVALID_HANDLE` return code. -/
def SQL_INVALID_HANDLE : Int := -2

/-- Modelled from the spec: the wire message type tags (`Q_RESULT`,
`Q_TABLE`, `Q_UPDATE`, `Q_END`) are defined in headers outside the
surveyed source.  Only their distinctness and nonnegativity are used;
concrete values are chosen for executability. -/
def Q_RESULT : Int := 1

/-- Modelled from the spec: table-rows message tag. -/
def Q_TABLE : Int := 2

/-- Modelled from the spec: update-count message tag (a nonzero constant;
line 341 of the source tests its truthiness). -/
def Q_UPDATE : Int := 3

/-- Modelled from the spec: end-of-results message tag. -/
def Q_END : Int := 4

/-- Modelled from the spec: one item on the read side of the wire.  Each
server message begins with two integers (type tag, count-or-status)
followed by a payload delivered as a sequence of length-delimited blocks,
the final block carrying a terminal marker (the `last` flag of
`bs_read_next`). -/
inductive WireItem where
  | int (n : Int)
  | block (data : List Char) (last : Bool)
deriving DecidableEq, Repr

/-- The read stream is the ordered sequence of undelivered wire items. -/
abbrev RStream := List WireItem

/-- Modelled from the spec: `stream_readInt` reads the next integer token
from the stream; it fails when the stream is exhausted or the next item
is not an integer. -/
def stream_readInt (rs : RStream) : Option (Int × RStream) :=
  match rs with
  | WireItem.int n :: r => some (n, r)
  | _ => none

/-- Modelled from the spec: the error-payload drain of `next_result`
(source lines 62-66): one unconditional `bs_read_next`, then repeated
reads until the terminal marker `last` is set.  Consuming a non-block
item terminates the drain (mismatched read). -/
def drain (rs : RStream) : RStream :=
  match rs with
  | [] => []
  | WireItem.block _ true :: r => r
  | WireItem.block _ false :: r => drain r
  | WireItem.int _ :: r => r

/-- Result record of `next_result`: the returned status (or `SQL_ERROR`),
the SQLSTATE error added to the statement (if any), the value left in the
caller's `type` out-parameter, and the remaining stream. -/
structure NRout where
  ret : Int
  err : Option String
  typ : Int
  rs : RStream
deriving DecidableEq, Repr

/-- Embedding of `next_result` (source lines 45-73).  `typ0` is the
caller's current value of the `type` out-parameter (left untouched when
the first read fails); `junkStatus` models the uninitialized local
`status` read when the second `stream_readInt` fails (its return value is
ignored by the source). -/
def next_result (rs : RStream) (typ0 : Int) (junkStatus : Int) : NRout :=
  match stream_readInt rs with
  | none => ⟨SQL_ERROR, some "08S01", typ0, rs⟩
  | some (t, rs1) =>
    if t = Q_END then ⟨SQL_ERROR, some "08S01", t, rs1⟩
    else
      match stream_readInt rs1 with
      | none =>
        if t < 0 ∨ junkStatus < 0 then ⟨SQL_ERROR, some "HY000", t, drain rs1⟩
        else ⟨junkStatus, none, t, rs1⟩
      | some (st, rs2) =>
        if t < 0 ∨ st < 0 then ⟨SQL_ERROR, some "HY000", t, drain rs2⟩
        else ⟨st, none, t, rs2⟩

/-- A payload is a run of non-terminal blocks closed by one terminal
block. -/
def isPayload (rs : RStream) : Bool :=
  match rs with
  | [WireItem.block _ true] => true
  | WireItem.block _ false :: r => isPayload r
  | _ => false

/-- Semantic type tags.  The ODBC `SQL_C_*` constants come from headers
outside the surveyed source; only their distinctness matters, so they are
modelled as constructors.  `SQL_UNKNOWN` stands for the zero value left by
the `memset` of the column array when no table entry matches. -/
inductive CType where
  | SQL_UNKNOWN
  | SQL_C_BIT
  | SQL_C_UTINYINT
  | SQL_C_CHAR
  | SQL_C_SSHORT
  | SQL_C_SLONG
  | SQL_C_SBIGINT
  | SQL_C_FLOAT
  | SQL_C_DOUBLE
  | SQL_C_TYPE_DATE
  | SQL_C_TYPE_TIME
  | SQL_C_TYPE_TIMESTAMP
deriving DecidableEq, Repr

/-- Embedding of the `sql_types` table (source lines 75-91), in source
order, without the `{0, 0}` sentinel (the lookup below stops at list
end exactly as the C loop stops at the sentinel). -/
def sql_types : List (String × CType) :=
  [("bit", CType.SQL_C_BIT),
   ("uchr", CType.SQL_C_UTINYINT),
   ("char", CType.SQL_C_CHAR),
   ("sht", CType.SQL_C_SSHORT),
   ("int", CType.SQL_C_SLONG),
   ("lng", CType.SQL_C_SBIGINT),
   ("flt", CType.SQL_C_FLOAT),
   ("dbl", CType.SQL_C_DOUBLE),
   ("date", CType.SQL_C_TYPE_DATE),
   ("time", CType.SQL_C_TYPE_TIME),
   ("timestamp", CType.SQL_C_TYPE_TIMESTAMP)]

/-- Embedding of the lookup loop at source lines 261-266: first matching
entry wins; when the sentinel is reached without a match the descriptor
field keeps its zeroed value (`SQL_UNKNOWN`). -/
def lookupType (t : String) : CType :=
  match sql_types.find? (fun p => p.1 = t) with
  | some p => p.2
  | none => CType.SQL_UNKNOWN

/-- Modelled from the spec: the transport gathering step behind
`bstream_read`.  Per the Stream Cursor contract, a refill delivers at
least the requested number of bytes unless the transport ends; delivery
is in whole transport chunks, so a read may overshoot the request.
Gathering stops at a non-block item (an integer token cannot be consumed
as payload bytes). -/
def gather (want : Nat) (rs : RStream) : List Char × RStream :=
  match rs with
  | WireItem.block d l :: r =>
    if want = 0 then ([], WireItem.block d l :: r)
    else if d.length < want then
      let p := gather (want - d.length) r
      (d ++ p.1, p.2)
    else (d, r)
  | other => ([], other)

/-- Modelled from the spec: `bstream_read(bs, bs->size - (bs->len - bs->pos))`
as called at source lines 212, 225, 243, 301 and 313.  The buffer is
addressed by indices instead of pointers (no shift; new bytes are
appended), `pos` is the start of the still-unresolved field, and the
request is the free space `B - (len - pos)` (zero when the unread window
already fills the buffer).  Returns the new buffer, the remaining
transport, and the number of bytes read. -/
def bstreamRead (B : Nat) (buf : List Char) (pos : Nat) (rs : RStream) :
    List Char × RStream × Nat :=
  let want := B - (buf.length - pos)
  let p := gather want rs
  (buf ++ p.1, p.2, p.1.length)

/-- Index of the first character at or after `i` satisfying `p`, or `none`
(the pointer-scan loops `while (sc < ec && ...) sc++` of the source). -/
def findFrom (p : Char → Bool) (buf : List Char) (i : Nat) : Option Nat :=
  match (buf.drop i).findIdx? p with
  | some j => some (i + j)
  | none => none

/-- The slice `buf[s..i)` as a string (the `*sc = 0; strdup(s)` idiom). -/
def extractStr (buf : List Char) (s i : Nat) : String :=
  String.mk ((buf.drop s).take (i - s))

/-- Column descriptor fields relevant to the claims (source lines
263-278); the remaining `pCol` fields are filled with fixed literals
("tablename", "Mtype", ...) and are omitted. -/
structure ColumnHeader where
  baseColumnName : String
  typeName : String
  descType : CType
  displaySize : Nat
deriving DecidableEq, Repr

/-- Embedding of the record-completion code at source lines 257-279:
null-terminate the type field, map it through `sql_types`, and fill the
descriptor (display size is `strlen(name) + 2`). -/
def mkColumn (name ty : String) : ColumnHeader :=
  ⟨name, ty, lookupType ty, name.length + 2⟩

/-- Embedding of the header parsing loop, source lines 216-280.  State:
buffer, scan index `sc`, remaining transport, `eof` flag (set when a
refill read zero bytes), accumulated descriptors.  The loop structure is
kept exactly: a missing comma with `!eof` refills from the field start
and `continue`s; `else if (eof)` breaks (even when the delimiter was
found); a missing newline allows one refill and one rescan before
breaking.  Recursion is fuelled because the `continue` path re-enters the
loop; fuel exhaustion returns the descriptors parsed so far. -/
def headerLoop (B : Nat) :
    Nat → List Char → Nat → RStream → Bool → List ColumnHeader →
    List ColumnHeader × RStream
  | 0, _, _, rs, _, acc => (acc, rs)
  | Nat.succ fuel, buf, sc, rs, eof, acc =>
    if sc < buf.length then
      match findFrom (fun c => c = ',') buf sc with
      | none =>
        if eof = false then
          let t := bstreamRead B buf sc rs
          headerLoop B fuel t.1 sc t.2.1 (t.2.2 = 0) acc
        else (acc, rs)
      | some i =>
        if eof then (acc, rs)
        else
          let name := extractStr buf sc i
          let sc2 := i + 1
          match findFrom (fun c => c = Char.ofNat 10) buf sc2 with
          | none =>
            if eof = false then
              let t := bstreamRead B buf sc2 rs
              match findFrom (fun c => c = Char.ofNat 10) t.1 sc2 with
              | none => (acc, t.2.1)
              | some j =>
                headerLoop B fuel t.1 (j + 1) t.2.1 (t.2.2 = 0)
                  (acc ++ [mkColumn name (extractStr t.1 sc2 j)])
            else (acc, rs)
          | some j =>
            headerLoop B fuel buf (j + 1) rs eof
              (acc ++ [mkColumn name (extractStr buf sc2 j)])
    else (acc, rs)

/-- Embedding of the header phase, source lines 197-281: create a fresh
buffered stream, do the initial refill (line 212), and run the parsing
loop; `bstream_destroy` discards buffered-but-unconsumed bytes, so the
returned stream is whatever the buffered reader did not pull in. -/
def decodeHeader (B fuel : Nat) (rs : RStream) : List ColumnHeader × RStream :=
  let t := bstreamRead B [] 0 rs
  headerLoop B fuel t.1 0 t.2.1 (t.2.2 = 0) []

/-- The single-quote character (code 39), written via `Char.ofNat`. -/
def sqChar : Char := Char.ofNat 39

/-- The single-quote as a one-character string. -/
def sq : String := String.mk [sqChar]

/-- The backslash character (code 92). -/
def bsChar : Char := Char.ofNat 92

/-- Embedding of `convert` (source lines 23-43).  The writing loop
executes `res[len++] = back-slash; len++;` on a quote, so between the
back-slash and the quote one byte of the freshly `malloc`ed buffer is
skipped and left uninitialized; `junk` stands for that byte.  (The
counting loop reserves only one extra byte per quote, so the write also
overruns the allocation; the byte sequence produced is as modelled.) -/
def convert (junk : Char) (s : List Char) : List Char :=
  s.flatMap (fun c => if c = sqChar then [bsChar, junk, c] else [c])

/-- Split a character list at the first question mark (the
`strchr(query, '?')` of source line 155): `some (pre, post)` with
`pre ++ '?' ++ post` the input, or `none`. -/
def splitAtQ : List Char → Option (List Char × List Char)
  | [] => none
  | c :: r =>
    if c = '?' then some ([], r)
    else
      match splitAtQ r with
      | none => none
      | some (p, q) => some (c :: p, q)

/-- One-based access into the bound-parameter array
(`hstmt->bindParams.array[i]`); index 0 is never used by the source. -/
def paramAt (params : List (Option String)) (k : Nat) : Option String :=
  params.getD (k - 1) none

/-- The `strings` array filled by the loop at source lines 140-146:
`strings[i] = convert(bindParams.array[i]->ParameterValuePtr)`.  The C
loop stops at the first unbound slot leaving later entries `NULL`; those
entries are never read (the substitution loop breaks at the same slot
first), so they are modelled as converted values uniformly. -/
def stringsAt (junk : Char) (params : List (Option String)) (k : Nat) : String :=
  match paramAt params k with
  | some v => String.mk (convert junk v.toList)
  | none => ""

/-- Embedding of the substitution loop, source lines 149-169.  Per
iteration: find the next marker; if none, append the whole remainder and
stop.  If a marker is found and its parameter slot is unbound, `break`
(the text built so far is the result).  Otherwise append
`prefix 'value'`, advance past the marker, and - because the trailing
`if (old && *old)` block runs in the same iteration - immediately append
the entire remainder after the marker as well, then loop on that same
remainder.  The loop is fuelled to keep the recursion structural; each
iteration strictly shrinks the remainder (`splitAtQ_post_lt` below), so
fuel `length + 1` as passed by `buildQuery` is never exhausted. -/
def substLoop (arr : Nat → Option String) (strs : Nat → String) :
    Nat → Nat → List Char → String → String
  | 0, _, _, acc => acc
  | Nat.succ fuel, k, rem, acc =>
    if rem = [] then acc
    else
      match splitAtQ rem with
      | none => acc ++ String.mk rem
      | some (pre, post) =>
        match arr k with
        | none => acc
        | some _ =>
          let acc2 := acc ++ String.mk pre ++ sq ++ strs k ++ sq
          let acc3 := if post = [] then acc2 else acc2 ++ String.mk post
          substLoop arr strs fuel (k + 1) post acc3

/-- Embedding of the parameter-substitution block of `SQLExecute`
(source lines 132-177): when `bindParams.size` is nonzero the query sent
is the output of the substitution loop (starting at parameter 1, empty
accumulator), otherwise the prepared query text is sent unchanged. -/
def buildQuery (junk : Char) (params : List (Option String)) (q : String) :
    String :=
  if params.length ≠ 0 then
    substLoop (paramAt params) (stringsAt junk params)
      (q.toList.length + 1) 1 q.toList ""
  else q

/-- Buffered-reader state threaded through the row decoding loops:
buffer, scan index, remaining transport, `eof` flag. -/
structure BSt where
  buf : List Char
  sc : Nat
  rs : RStream
  eof : Bool
deriving DecidableEq, Repr

/-- Quote stripping, source lines 327-334: if the field starts and ends
with the same double quote, both are removed; the single-quote test then
compares against the just-written terminator, so only a field that was
not double-quote-stripped can be single-quote-stripped.  A one-character
quoted field strips to empty (both pointers coincide). -/
def stripQuotes (f : List Char) : List Char :=
  if f ≠ [] ∧ f.headD ' ' = '"' ∧ f.getLastD ' ' = '"' then
    (f.drop 1).dropLast
  else if f ≠ [] ∧ f.headD ' ' = sqChar ∧ f.getLastD ' ' = sqChar then
    (f.drop 1).dropLast
  else f

/-- Field slice with quote stripping (`*sc = 0; ... strdup(s)`). -/
def mkField (buf : List Char) (s i : Nat) : String :=
  String.mk (stripQuotes ((buf.drop s).take (i - s)))

/-- Embedding of one field read of the row loop, source lines 307-336:
scan for tab or newline; if the window ends first and `eof` is not set,
refill once from the field start and rescan; if the delimiter is still
missing, `return SQL_ERROR` (modelled as `Except.error` carrying the
state).  When `eof` was already set the source falls through and
null-terminates at the window end, taking the rest of the window as the
field. -/
def parseField (B : Nat) (st : BSt) : Except BSt (String × BSt) :=
  match findFrom (fun c => c = Char.ofNat 9 || c = Char.ofNat 10) st.buf st.sc with
  | some i =>
    Except.ok (mkField st.buf st.sc i, ⟨st.buf, i + 1, st.rs, st.eof⟩)
  | none =>
    if st.eof = false then
      let t := bstreamRead B st.buf st.sc st.rs
      match findFrom (fun c => c = Char.ofNat 9 || c = Char.ofNat 10) t.1 st.sc with
      | some i => Except.ok (mkField t.1 st.sc i, ⟨t.1, i + 1, t.2.1, t.2.2 = 0⟩)
      | none => Except.error ⟨t.1, st.sc, t.2.1, t.2.2 = 0⟩
    else
      Except.ok (mkField st.buf st.sc st.buf.length,
        ⟨st.buf, st.buf.length + 1, st.rs, st.eof⟩)

/-- Embedding of the inner column loop
`for (nCol = 1; nCol <= nCols && !eof; nCol++)` (source line 306):
counts down the remaining columns, exits early when `eof` is set,
propagates the mid-field error. -/
def colLoop (B : Nat) : Nat → BSt → Except BSt (List String × BSt)
  | 0, st => Except.ok ([], st)
  | Nat.succ n, st =>
    if st.eof then Except.ok ([], st)
    else
      match parseField B st with
      | Except.error e => Except.error e
      | Except.ok (f, st1) =>
        match colLoop B n st1 with
        | Except.error e => Except.error e
        | Except.ok (row, st2) => Except.ok (f :: row, st2)

/-- Embedding of the outer row loop
`for (nRow = 1; nRow <= nRows && !eof; nRow++)` (source line 305). -/
def rowLoop (B nCols : Nat) : Nat → BSt → Except BSt (List (List String) × BSt)
  | 0, st => Except.ok ([], st)
  | Nat.succ m, st =>
    if st.eof then Except.ok ([], st)
    else
      match colLoop B nCols st with
      | Except.error e => Except.error e
      | Except.ok (row, st1) =>
        match rowLoop B nCols m st1 with
        | Except.error e => Except.error e
        | Except.ok (g, st2) => Except.ok (row :: g, st2)

/-- Embedding of the row phase, source lines 288-340: fresh buffered
stream, initial refill (line 301), then the row/column loops.  On the
mid-field `return SQL_ERROR` the grid is absent; otherwise the parsed
grid is returned together with the transport left after
`bstream_destroy`. -/
def decodeRows (B nCols nRows : Nat) (rs : RStream) :
    Option (List (List String)) × RStream :=
  let t := bstreamRead B [] 0 rs
  match rowLoop B nCols nRows ⟨t.1, 0, t.2.1, t.2.2 = 0⟩ with
  | Except.error e => (none, e.rs)
  | Except.ok (g, st) => (some g, st.rs)

/-- Statement cursor states used by `SQLExecute` (the source only tests
`PREPARED` and assigns `EXECUTED`). -/
inductive StmtState where
  | UNPREPARED
  | PREPARED
  | EXECUTED
deriving DecidableEq, Repr

/-- The slice of `ODBCStmt` that `SQLExecute` touches: validity of the
handle, cursor state, prepared query text, bound parameters
(`bindParams.size` is the list length, slots are one-based), result
metadata and data, and the statement error list (SQLSTATE codes). -/
structure Stmt where
  valid : Bool
  state : StmtState
  query : String
  params : List (Option String)
  nrCols : Int
  nrRows : Int
  currentRow : Int
  resultCols : List ColumnHeader
  resultRows : List (List String)
  errs : List String
deriving DecidableEq, Repr

/-- `addStmtError` (append one SQLSTATE to the statement's error list). -/
def addErr (st : Stmt) (e : String) : Stmt :=
  { st with errs := st.errs ++ [e] }

/-- Outcome of `SQLExecute`: return code, updated statement, bytes
written to the write stream, remaining read stream. -/
structure ExecOut where
  ret : Int
  stmt : Stmt
  written : String
  rs : RStream
deriving DecidableEq, Repr

/-- Tail of `SQLExecute` after the (optional) header frame, source lines
287-347: `nCols` is the local variable (set only by a header frame),
`r` the outcome of the last `next_result`.  A `Q_TABLE` frame with
positive status decodes the row grid (the mid-field `SQL_ERROR` return
at line 323 adds no error code and leaves the state unchanged);
otherwise the `else if (Q_UPDATE)` branch (always taken, the constant is
nonzero) clears the row data.  Finally the state becomes `EXECUTED`. -/
def execTail (B : Nat) (written : String) (st : Stmt) (nCols : Int)
    (r : NRout) : ExecOut :=
  if r.typ = Q_TABLE ∧ r.ret > 0 then
    match decodeRows B nCols.toNat r.ret.toNat r.rs with
    | (none, rs2) => ⟨SQL_ERROR, st, written, rs2⟩
    | (some g, rs2) =>
      let st2 := { st with nrRows := r.ret, resultRows := g }
      ⟨SQL_SUCCESS, { st2 with state := StmtState.EXECUTED }, written, rs2⟩
  else
    if Q_UPDATE ≠ 0 then
      let st2 := { st with nrRows := 0, resultRows := [] }
      ⟨SQL_SUCCESS, { st2 with state := StmtState.EXECUTED }, written, r.rs⟩
    else
      ⟨SQL_SUCCESS, { st with state := StmtState.EXECUTED }, written, r.rs⟩

/-- Embedding of `SQLExecute` (source lines 93-348).  Parameters: `B` the
buffered-stream block size, `fuel` for the header loop, `junkC` the
uninitialized byte of `convert`, `junkS` the uninitialized `status` local
of `next_result`.  Steps: handle check; clear errors; cursor-state check
(24000 before any stream access); parameter substitution; write
`query ; \n` and flush; zero the result metadata; read the next frame;
on a positive `Q_RESULT`, read the result id integer (return value
ignored), decode the header payload, set the column metadata and read the
following frame; then the table/update tail. -/
def SQLExecute (B fuel : Nat) (junkC : Char) (junkS : Int) (stmt : Stmt)
    (rs : RStream) : ExecOut :=
  if stmt.valid = false then ⟨SQL_INVALID_HANDLE, stmt, "", rs⟩
  else
    let st0 := { stmt with errs := [] }
    if st0.state ≠ StmtState.PREPARED then
      ⟨SQL_ERROR, addErr st0 "24000", "", rs⟩
    else
      let query := buildQuery junkC st0.params st0.query
      let written := query ++ ";\n"
      let st1 := { st0 with nrCols := 0, nrRows := 0, currentRow := 0 }
      let r1 := next_result rs 0 junkS
      let st2 := { st1 with errs := st1.errs ++ r1.err.toList }
      if r1.ret = SQL_ERROR then ⟨SQL_ERROR, st2, written, r1.rs⟩
      else
        if r1.typ = Q_RESULT ∧ r1.ret > 0 then
          let rs2 := match stream_readInt r1.rs with
                     | some p => p.2
                     | none => r1.rs
          let hd := decodeHeader B fuel rs2
          let st3 := { st2 with nrCols := r1.ret, resultCols := hd.1 }
          let r2 := next_result hd.2 r1.typ junkS
          let st4 := { st3 with errs := st3.errs ++ r2.err.toList }
          if r2.ret = SQL_ERROR then ⟨SQL_ERROR, st4, written, r2.rs⟩
          else execTail B written st4 r1.ret r2
        else execTail B written st2 0 r1

/-! Helper lemmas (shared; none of these is a claim theorem). -/

theorem splitAtQ_post_lt (l p q : List Char)
    (h : splitAtQ l = some (p, q)) : q.length < l.length := by
  induction l generalizing p q with
  | nil => simp [splitAtQ] at h
  | cons c r ih =>
    by_cases hc : c = '?'
    · simp only [splitAtQ, hc, if_true, Option.some.injEq, Prod.mk.injEq] at h
      rw [← h.2]
      simp
    · simp only [splitAtQ, hc, if_false] at h
      match hr : splitAtQ r with
      | none => rw [hr] at h; simp at h
      | some (p2, q2) =>
        rw [hr] at h
        simp at h
        have := ih p2 q2 hr
        simp [← h.2]
        omega

theorem drain_append_of_isPayload (p : RStream) (rest : RStream)
    (h : isPayload p = true) : drain (p ++ rest) = rest := by
  induction p with
  | nil => simp [isPayload] at h
  | cons a r ih =>
    match a, r with
    | WireItem.block d true, [] => simp [drain]
    | WireItem.block d true, b :: r2 => simp [isPayload] at h
    | WireItem.block d false, r =>
      have hr : isPayload r = true := by simpa [isPayload] using h
      simpa [drain] using ih hr
    | WireItem.int n, r => simp [isPayload] at h

theorem bstreamRead_buf_of_zero (B : Nat) (buf : List Char) (pos : Nat)
    (rs : RStream) (h : (bstreamRead B buf pos rs).2.2 = 0) :
    (bstreamRead B buf pos rs).1 = buf := by
  simp only [bstreamRead] at h ⊢
  rw [List.length_eq_zero] at h
  simp [h]

theorem parseField_eof_false (B : Nat) (st : BSt) (f : String) (st1 : BSt)
    (he : st.eof = false) (h : parseField B st = Except.ok (f, st1)) :
    st1.eof = false := by
  unfold parseField at h
  match h1 : findFrom (fun c => c = Char.ofNat 9 || c = Char.ofNat 10) st.buf st.sc with
  | some i =>
    rw [h1] at h
    simp only [Except.ok.injEq, Prod.mk.injEq] at h
    rw [← h.2]
    exact he
  | none =>
    rw [h1, he] at h
    simp only [if_true] at h
    match h2 : findFrom (fun c => c = Char.ofNat 9 || c = Char.ofNat 10)
        (bstreamRead B st.buf st.sc st.rs).1 st.sc with
    | none => rw [h2] at h; exact absurd h (by simp)
    | some i =>
      rw [h2] at h
      simp only [Except.ok.injEq, Prod.mk.injEq] at h
      rw [← h.2]
      simp only [BSt.eof, decide_eq_false_iff_not]
      intro h0
      rw [bstreamRead_buf_of_zero B st.buf st.sc st.rs h0, h1] at h2
      exact absurd h2 (by simp)

theorem colLoop_len (B : Nat) (n : Nat) (st : BSt) (row : List String)
    (st1 : BSt) (he : st.eof = false)
    (h : colLoop B n st = Except.ok (row, st1)) :
    row.length = n ∧ st1.eof = false := by
  induction n generalizing st row st1 with
  | zero =>
    simp only [colLoop, Except.ok.injEq, Prod.mk.injEq] at h
    refine ⟨by rw [← h.1]; rfl, by rw [← h.2]; exact he⟩
  | succ n ih =>
    simp only [colLoop, he] at h
    simp only [Bool.false_eq_true, if_false] at h
    match h1 : parseField B st with
    | Except.error e => rw [h1] at h; exact absurd h (by simp)
    | Except.ok (f, stA) =>
      rw [h1] at h
      dsimp only at h
      have heA : stA.eof = false := parseField_eof_false B st f stA he h1
      match h2 : colLoop B n stA with
      | Except.error e => rw [h2] at h; exact absurd h (by simp)
      | Except.ok (row2, st2) =>
        rw [h2] at h
        simp only [Except.ok.injEq, Prod.mk.injEq] at h
        have := ih stA row2 st2 heA h2
        refine ⟨?_, ?_⟩
        · rw [← h.1]
          simp [this.1]
        · rw [← h.2]
          exact this.2

theorem rowLoop_shape (B nCols : Nat) (m : Nat) (st : BSt)
    (g : List (List String)) (st1 : BSt)
    (h : rowLoop B nCols m st = Except.ok (g, st1)) :
    (∀ r ∈ g, r.length = nCols) ∧ g.length ≤ m := by
  induction m generalizing st g st1 with
  | zero =>
    simp only [rowLoop, Except.ok.injEq, Prod.mk.injEq] at h
    rw [← h.1]
    simp
  | succ m ih =>
    by_cases he : st.eof
    · simp only [rowLoop, he, if_true, Except.ok.injEq, Prod.mk.injEq] at h
      rw [← h.1]
      simp
    · simp only [rowLoop, he, if_false] at h
      match h1 : colLoop B nCols st with
      | Except.error e => rw [h1] at h; exact absurd h (by simp)
      | Except.ok (row, stA) =>
        rw [h1] at h
        dsimp only at h
        have hrow := colLoop_len B nCols st row stA (by simpa using he) h1
        match h2 : rowLoop B nCols m stA with
        | Except.error e => rw [h2] at h; exact absurd h (by simp)
        | Except.ok (g2, st2) =>
          rw [h2] at h
          simp only [Bool.false_eq_true, if_false, Except.ok.injEq,
            Prod.mk.injEq] at h
          have := ih stA g2 st2 h2
          rw [← h.1]
          constructor
          · intro r hr
            rcases List.mem_cons.mp hr with h3 | h3
            · rw [h3]; exact hrow.1
            · exact this.1 r h3
          · simp only [List.length_cons]
            omega

/-! Claim theorems. -/

/-- C1: the claim states that a table-rows frame announcing `nRows` rows
whose stream ends before `nRows` complete rows are read always fails, and
never yields a silently short ResultSet.  The code violates this: when
the stream is already at end-of-stream at the start of the row payload,
the initial `bstream_read` (line 301) returns 0, the row loops are
skipped entirely by their `!eof` guards (lines 305-306), and `SQLExecute`
falls through to `State = EXECUTED; return SQL_SUCCESS` with `nrRows`
still set to the announced count and no row stored.  Here: a 2-column
header frame, then a `Q_TABLE` frame announcing 1 row followed by
end-of-stream; the call returns `SQL_SUCCESS`, reports `nrRows = 1`, and
stores an empty grid. -/
theorem C1_truncated_rows_silent_success :
    SQLExecute 8190 100 'x' 0
      ⟨true, StmtState.PREPARED, "q", [], 0, 0, 0, [], [], []⟩
      [WireItem.int Q_RESULT, WireItem.int 2, WireItem.int 7,
       WireItem.block "id,int\nname,char\n".toList true,
       WireItem.int Q_TABLE, WireItem.int 1] =
    ⟨SQL_SUCCESS,
     ⟨true, StmtState.EXECUTED, "q", [], 2, 1, 0,
      [⟨"id", "int", CType.SQL_C_SLONG, 4⟩,
       ⟨"name", "char", CType.SQL_C_CHAR, 6⟩],
      [], []⟩,
     "q;\n", []⟩ := by
  decide

/-- C2: the claim states that when fewer bound values are supplied than
markers encountered, execute fails with a binding error before any
network I/O and writes nothing.  The code violates this: the substitution
loop just `break`s at the first unbound slot (line 158) without recording
any error, and the partially substituted text is then written to the
stream (lines 179-181).  Here: template with two markers, one bound
value; the bytes written are the truncated query followed by the
terminator, and the only error recorded is the 08S01 from the subsequent
read of the (empty) reply stream - no binding error exists. -/
theorem C2_unbound_marker_written_anyway :
    SQLExecute 8190 100 'x' 0
      ⟨true, StmtState.PREPARED, "a?b?c", [some "v"], 0, 0, 0, [], [], []⟩
      [] =
    ⟨SQL_ERROR,
     ⟨true, StmtState.PREPARED, "a?b?c", [some "v"], 0, 0, 0, [], [],
      ["08S01"]⟩,
     "a'v'b?c;\n", []⟩ := by
  decide

/-- C3: the claim states that substitution replaces each marker in order
by its quoted value, leaves no marker characters unconsumed, and keeps
values in order.  The code violates this: the tail-append at lines
165-167 is not an `else` branch, so after every substitution the entire
remainder (including later markers) is appended immediately and then
re-processed.  For `a??` with values `v`, `w` the output is
`a'v'?'w'` - a raw `?` survives in the output; for `a?b` with value `v`
the output is `a'v'bb` - the trailing segment is emitted twice (expected
`a'v'b`). -/
theorem C3_substitution_mangles_output :
    buildQuery 'x' [some "v", some "w"] "a??" = "a'v'?'w'" ∧
    buildQuery 'x' [some "v"] "a?b" = "a'v'bb" := by
  decide

/-- C4 (counterexample): the claim, as stated, requires the frame reader
to drain the error payload for every frame whose type tag is
unrecognized.  The code only tests `*type < 0 || status < 0` (line 57):
for the unrecognized nonnegative tag 99 with status 0 it returns the
status at once, leaving the whole payload in front of the cursor, so the
cursor is not at the start of the next frame. -/
theorem C4_unrecognized_tag_not_drained :
    next_result
      [WireItem.int 99, WireItem.int 0, WireItem.block "oops".toList true,
       WireItem.int Q_TABLE, WireItem.int 1] 0 0 =
      ⟨0, none, 99,
       [WireItem.block "oops".toList true, WireItem.int Q_TABLE,
        WireItem.int 1]⟩ ∧
    (99 : Int) ∉ [Q_RESULT, Q_TABLE, Q_UPDATE, Q_END] ∧ (0 : Int) ≤ 0 := by
  decide

/-- C4 (amended): for every well-formed frame whose type tag is negative,
or whose type tag differs from `Q_END` and whose status is negative, the
frame reader reads and discards the entire error payload before
returning, so the cursor position after the call equals the start offset
of the next frame (the remaining stream is exactly the bytes after the
payload, where a subsequent well-formed frame decodes correctly). -/
theorem C4_error_frame_drained (t st t0 j : Int) (payload rest : RStream)
    (hp : isPayload payload = true) (hq : t ≠ Q_END)
    (hneg : t < 0 ∨ st < 0) :
    next_result
      (WireItem.int t :: WireItem.int st :: (payload ++ rest)) t0 j =
      ⟨SQL_ERROR, some "HY000", t, rest⟩ := by
  simp only [next_result, stream_readInt]
  rw [if_neg hq, if_pos hneg, drain_append_of_isPayload payload rest hp]

/-- C4 (witness): the amended theorem applied to a concrete error frame
(type -3, status 5, a two-block payload) followed by a further frame. -/
theorem C4_error_frame_drained_witness :
    next_result
      [WireItem.int (-3), WireItem.int 5, WireItem.block "er".toList false,
       WireItem.block "x".toList true, WireItem.int Q_TABLE] 0 0 =
      ⟨SQL_ERROR, some "HY000", -3, [WireItem.int Q_TABLE]⟩ :=
  C4_error_frame_drained (-3) 5 0 0
    [WireItem.block "er".toList false, WireItem.block "x".toList true]
    [WireItem.int Q_TABLE] (by decide) (by decide) (by decide)

/-- C5: the header payload `id,int\nname,char\n` decodes to exactly two
descriptors in order: `id` with raw type `int`, semantic tag
`SQL_C_SLONG` (integer), display width 4, and `name` with raw type
`char`, semantic tag `SQL_C_CHAR` (character), display width 6 - width
being name length plus the constant pad 2 (source line 278). -/
theorem C5_header_scenario :
    decodeHeader 8190 100
      [WireItem.block "id,int\nname,char\n".toList true] =
    ([⟨"id", "int", CType.SQL_C_SLONG, 4⟩,
      ⟨"name", "char", CType.SQL_C_CHAR, 6⟩], []) := by
  decide

/-- C6: the claim states that decoding a header payload in one contiguous
chunk and split across refill boundaries yields identical descriptor
sequences.  The code violates this: the parsing loop runs `while
(sc < ec)` (line 216) and only refills mid-field, so when a refill window
ends exactly at a record boundary the loop exits with the remaining
records unparsed.  With buffer size 7, the contiguous payload yields both
descriptors, while the same payload split at the record boundary yields
only the first (the second record is still on the transport when the
loop exits). -/
theorem C6_split_decode_differs :
    decodeHeader 7 100
      [WireItem.block "id,int\nname,char\n".toList true] =
      ([⟨"id", "int", CType.SQL_C_SLONG, 4⟩,
        ⟨"name", "char", CType.SQL_C_CHAR, 6⟩], []) ∧
    decodeHeader 7 100
      [WireItem.block "id,int\n".toList false,
       WireItem.block "name,char\n".toList true] =
      ([⟨"id", "int", CType.SQL_C_SLONG, 4⟩],
       [WireItem.block "name,char\n".toList true]) := by
  decide

/-- C7: every one of the eleven raw type names of the `sql_types` table
maps to its corresponding semantic tag; every name outside the table
maps to the generic `SQL_UNKNOWN` tag; and the header decoder does not
fail on an unmapped name (a record with raw type `foo` still yields its
descriptor, tagged `SQL_UNKNOWN`). -/
theorem C7_type_table :
    (lookupType "bit" = CType.SQL_C_BIT ∧
     lookupType "uchr" = CType.SQL_C_UTINYINT ∧
     lookupType "char" = CType.SQL_C_CHAR ∧
     lookupType "sht" = CType.SQL_C_SSHORT ∧
     lookupType "int" = CType.SQL_C_SLONG ∧
     lookupType "lng" = CType.SQL_C_SBIGINT ∧
     lookupType "flt" = CType.SQL_C_FLOAT ∧
     lookupType "dbl" = CType.SQL_C_DOUBLE ∧
     lookupType "date" = CType.SQL_C_TYPE_DATE ∧
     lookupType "time" = CType.SQL_C_TYPE_TIME ∧
     lookupType "timestamp" = CType.SQL_C_TYPE_TIMESTAMP) ∧
    (∀ s : String,
      s ∉ ["bit", "uchr", "char", "sht", "int", "lng", "flt", "dbl",
           "date", "time", "timestamp"] →
      lookupType s = CType.SQL_UNKNOWN) ∧
    decodeHeader 8190 100 [WireItem.block "a,foo\n".toList true] =
      ([⟨"a", "foo", CType.SQL_UNKNOWN, 3⟩], []) := by
  refine ⟨by decide, ?_, by decide⟩
  intro s hs
  simp only [List.mem_cons, List.not_mem_nil, or_false, not_or] at hs
  obtain ⟨h1, h2, h3, h4, h5, h6, h7, h8, h9, h10, h11⟩ := hs
  simp [lookupType, sql_types, List.find?, Ne.symm h1, Ne.symm h2,
    Ne.symm h3, Ne.symm h4, Ne.symm h5, Ne.symm h6, Ne.symm h7,
    Ne.symm h8, Ne.symm h9, Ne.symm h10, Ne.symm h11]

/-- C7 (witness): the unmapped-name part applied to `varchar`. -/
theorem C7_type_table_witness : lookupType "varchar" = CType.SQL_UNKNOWN :=
  C7_type_table.2.1 "varchar" (by decide)

/-- C8: calling `SQLExecute` on a valid statement whose state is not
`PREPARED` fails with the invalid-cursor-state error 24000 and has no
side effect: nothing is written to or read from the transport, and
every statement field except the error list (cleared, then 24000 added)
is unchanged. -/
theorem C8_not_prepared_no_effect (B fuel : Nat) (jc : Char) (js : Int)
    (stmt : Stmt) (rs : RStream) (hv : stmt.valid = true)
    (hs : stmt.state ≠ StmtState.PREPARED) :
    SQLExecute B fuel jc js stmt rs =
      ⟨SQL_ERROR, { stmt with errs := ["24000"] }, "", rs⟩ := by
  simp [SQLExecute, hv, hs, addErr]

/-- C8 (witness): the theorem applied to a concrete statement in state
`EXECUTED` with a pending error and a nonempty read stream. -/
theorem C8_not_prepared_no_effect_witness :
    SQLExecute 8190 100 'x' 0
      ⟨true, StmtState.EXECUTED, "q", [], 3, 4, 1,
       [], [["a"]], ["HY000"]⟩ [WireItem.int 5] =
    ⟨SQL_ERROR,
     ⟨true, StmtState.EXECUTED, "q", [], 3, 4, 1, [], [["a"]], ["24000"]⟩,
     "", [WireItem.int 5]⟩ :=
  C8_not_prepared_no_effect 8190 100 'x' 0
    ⟨true, StmtState.EXECUTED, "q", [], 3, 4, 1, [], [["a"]], ["HY000"]⟩
    [WireItem.int 5] (by decide) (by decide)

/-- C9 (counterexample): the claim, as stated, requires a row whose field
count differs from the column count to be rejected.  The code never
rejects a row: the field scan treats tab and newline interchangeably
(line 309), so for the 2x2 payload whose first input line `a` holds a
single field, decoding succeeds and silently re-frames the fields across
lines into `[[a, b], [c, d]]`. -/
theorem C9_ragged_row_not_rejected :
    decodeRows 8190 2 2 [WireItem.block "a\nb\tc\td\n".toList true] =
      (some [["a", "b"], ["c", "d"]], []) := by
  decide

/-- C9 (amended): every row the decoder stores has exactly `nCols`
fields (the grid is rectangular with `nCols` columns and at most `nRows`
rows); however a row whose input line has a different field count is not
rejected - tab and newline are interchangeable terminators, so fields
are silently re-framed across lines. -/
theorem C9_grid_rectangular (B nCols nRows : Nat) (rs : RStream)
    (g : List (List String)) (rs2 : RStream)
    (h : decodeRows B nCols nRows rs = (some g, rs2)) :
    (∀ r ∈ g, r.length = nCols) ∧ g.length ≤ nRows := by
  simp only [decodeRows] at h
  match h1 : rowLoop B nCols nRows
      ⟨(bstreamRead B [] 0 rs).1, 0, (bstreamRead B [] 0 rs).2.1,
       (bstreamRead B [] 0 rs).2.2 = 0⟩ with
  | Except.error e =>
    rw [h1] at h
    exact absurd h (by simp)
  | Except.ok (g0, st) =>
    rw [h1] at h
    simp only [Prod.mk.injEq, Option.some.injEq] at h
    rw [← h.1]
    exact rowLoop_shape B nCols nRows _ g0 st h1

/-- C9 (witness): the amended theorem applied to the quoted-field row
scenario of the spec. -/
theorem C9_grid_rectangular_witness :
    (∀ r ∈ [["1", "Alice"], ["2", "Bob, Jr"]], r.length = 2) ∧
    ([["1", "Alice"], ["2", "Bob, Jr"]] : List (List String)).length ≤ 2 :=
  C9_grid_rectangular 8190 2 2
    [WireItem.block "1\tAlice\n2\t\"Bob, Jr\"\n".toList true]
    [["1", "Alice"], ["2", "Bob, Jr"]] [] (by decide)

/-- C10: whenever reading the frame header's type integer fails, or the
type read is the end-of-results tag `Q_END`, the frame reader records
the communication-link-failure SQLSTATE 08S01 and returns `SQL_ERROR`
immediately: the remaining stream shows that neither the status integer
nor any payload byte was consumed (on a failed read nothing is consumed;
on `Q_END` exactly the one type integer is). -/
theorem C10_read_fail_or_qend (rs : RStream) (t0 j : Int) :
    (stream_readInt rs = none →
      next_result rs t0 j = ⟨SQL_ERROR, some "08S01", t0, rs⟩) ∧
    (∀ rs1 : RStream, stream_readInt rs = some (Q_END, rs1) →
      next_result rs t0 j = ⟨SQL_ERROR, some "08S01", Q_END, rs1⟩) := by
  constructor
  · intro h
    simp [next_result, h]
  · intro rs1 h
    simp [next_result, h]

/-- C10 (witness): both cases at concrete inputs - the empty stream, and
a stream opening with `Q_END`. -/
theorem C10_read_fail_or_qend_witness :
    next_result [] 0 0 = ⟨SQL_ERROR, some "08S01", 0, []⟩ ∧
    next_result [WireItem.int Q_END, WireItem.int 5] 0 0 =
      ⟨SQL_ERROR, some "08S01", Q_END, [WireItem.int 5]⟩ :=
  ⟨(C10_read_fail_or_qend [] 0 0).1 rfl,
   (C10_read_fail_or_qend [WireItem.int Q_END, WireItem.int 5] 0 0).2
     [WireItem.int 5] rfl⟩

end MDB
